import Mathlib

/-!
Shallow embedding of `build_kernel.py`, a kernel build-orchestration script.

The script is sequential and effectful; we model it as functions that return a
result (`Except PyError α`) together with a linear trace of the side effects
performed (`List Eff`), in the order the Python interpreter would perform them.
External collaborators (subprocess execution, regex search, the filesystem) are
oracles supplied through a `World` record, so every definition is executable on
concrete worlds.
-/

namespace BuildKernel

/-- Result of `subprocess.Popen(...).communicate()` followed by decoding:
exit code and the captured, decoded stdout and stderr texts. -/
structure ProcResult where
  returncode : Int
  stdout : String
  stderr : String
  deriving DecidableEq, Repr

/-- Python exceptions that the script can raise.  `CommandError` is the
script's own class (its message is built from the command and the exit code,
so we carry those two fields).  `NameError` and `FileNotFoundError` are
Python built-ins. -/
inductive PyError where
  | CommandError (command : List String) (returncode : Int)
  | NameError (missing : String)
  | FileNotFoundError (path : String)
  deriving DecidableEq, Repr

/-- Observable side effects of the script, in interpreter order. -/
inductive Eff where
  | print (s : String)
  | popen (cmd : List String)
  | writeFile (path content : String)
  | setPath (p : List Char)
  | rmtree (path : String)
  | readFile (path : String)
  | copyfile (src dst : String)
  | chdir (path : String)
  | mkzip (name : String) (entries : List (String × String))
  | removeIfExists (path : String)
  | move (src dst : String)
  deriving DecidableEq, Repr

/-- Python's `f"{x}"` applied to an `Optional[str]`: `None` prints as `None`. -/
def pyStr : Option String → String
  | none => "None"
  | some s => s

/-- Python's `f"{b}"` applied to a `bool`. -/
def pyBool : Bool → String
  | true => "True"
  | false => "False"

/-- Embedding of `run_command(command, stdout_log_file, stderr_log_file)`
(lines 12-27).  `exec` is the subprocess oracle.  The process is spawned and
its output captured; each requested log file is written (Python's `open(p,
"w")` truncates, so a write is a full overwrite); the "Output log files"
line is printed when any log was requested; only then is the exit code
checked and `CommandError` raised on a nonzero code. -/
def run_command (exec : List String → ProcResult) (command : List String)
    (stdout_log_file stderr_log_file : Option String) :
    Except PyError (String × String) × List Eff :=
  let r := exec command
  let t := [Eff.popen command]
    ++ (match stdout_log_file with
        | some p => [Eff.writeFile p r.stdout]
        | none => [])
    ++ (match stderr_log_file with
        | some p => [Eff.writeFile p r.stderr]
        | none => [])
    ++ (if stdout_log_file.isSome || stderr_log_file.isSome then
          [Eff.print ("Output log files: " ++ pyStr stdout_log_file ++ ", "
            ++ pyStr stderr_log_file)]
        else [])
  if r.returncode ≠ 0 then
    (Except.error (PyError.CommandError command r.returncode), t)
  else
    (Except.ok (r.stdout, r.stderr), t)

/-- Embedding of `extract_match(regex, text)` (lines 35-39).  `search` is the
oracle for `re.search(regex, text)` returning group 1 of the match when one
exists.  On no match the source executes
`raise AssertionError(f'Failed to match pattern: {pattern} with regex: {regex}')`;
the f-string is evaluated first and references the name `pattern`, which is
defined nowhere (the parameters are `regex` and `text`), so the interpreter
raises `NameError: name 'pattern' is not defined` and the `AssertionError` is
never constructed. -/
def extract_match (search : String → String → Option String)
    (regex text : String) : Except PyError String :=
  match search regex text with
  | some g => Except.ok g
  | none => Except.error (PyError.NameError "pattern")

/-- One pass of the `for file in files: zf.write(file)` loop of `create_zip`:
files are appended to the archive in order until one is missing, at which
point `zf.write` raises `FileNotFoundError`; the entries already written
(first component of the returned pair is the result, second the archive's
entry list) remain in the archive because `with` closes the zip file,
finalizing it, even when the body raises. -/
def zipWriteAll (fs : String → Option String) :
    List String → Except PyError Unit × List (String × String)
  | [] => (Except.ok (), [])
  | f :: rest =>
    match fs f with
    | none => (Except.error (PyError.FileNotFoundError f), [])
    | some c =>
      match zipWriteAll fs rest with
      | (r, es) => (r, (f, c) :: es)

/-- Embedding of `create_zip(zip_filename, files)` (lines 47-52).  `fs` maps a
path to its content when the file exists.  Returns the result, the entry list
of the archive left on disk (opening `ZipFile(..., 'w')` creates the archive
and closing it finalizes whatever was written, also on failure), and the
trace. -/
def create_zip (fs : String → Option String) (zip_filename : String)
    (files : List String) :
    Except PyError Unit × List (String × String) × List Eff :=
  match zipWriteAll fs files with
  | (r, es) =>
    let t := [Eff.print ("Creating zip: " ++ zip_filename ++ " with "
                ++ toString files.length ++ " files"),
              Eff.mkzip zip_filename es]
    match r with
    | Except.ok _ => (Except.ok (), es, t ++ [Eff.print "Zip creation complete"])
    | Except.error e => (Except.error e, es, t)

/-- Python's `str.split(sep)` for a one-character separator: `"".split` is
`[""]`, and every separator occurrence produces a boundary. -/
def pySplit (sep : Char) : List Char → List (List Char)
  | [] => [[]]
  | c :: rest =>
    if c = sep then [] :: pySplit sep rest
    else
      match pySplit sep rest with
      | [] => [[c]]
      | h :: t => (c :: h) :: t

/-- Embedding of the PATH-preparation step (lines 118-120): prepend
`toolchain_path` to the PATH string unless it is already one of the
`os.pathsep`-separated entries (`os.pathsep` is a colon on this platform). -/
def prepare_path (toolchain_path path_env : List Char) : List Char :=
  if toolchain_path ∈ pySplit ':' path_env then path_env
  else toolchain_path ++ ':' :: path_env

/-- The value `os.path.join(os.getcwd(), 'toolchain', 'bin')` as characters. -/
def toolchain_bin (cwd : String) : List Char :=
  (cwd ++ "/toolchain/bin").data

/-- The `valid_targets` list (line 83). -/
def valid_targets : List String :=
  ["a51", "f41", "m31s", "m31", "m21", "gta4xl", "gta4xlwifi"]

/-- The submodule-update command (line 98). -/
def git_cmd : List String := ["git", "submodule", "update", "--init"]

/-- The clang invocation used by `ClangCompiler` (lines 58 and 66). -/
def clang_cmd : List String := ["./toolchain/bin/clang", "-v"]

/-- The raw pattern `version_regex` of `ClangCompiler.get_version` (line 65). -/
def version_regex : String := "(.*?clang version \\d+(\\.\\d+)*)"

/-- The pattern used on `utsrelease.h` (line 145). -/
def uts_regex : String := "\"([^\"]+)\""

/-- The hardcoded `kernel_version` constant (line 95). -/
def kernel_version : String := "1.7.0"

/-- The `common_flags` list (lines 88-93); `ncpu` is `os.cpu_count()`. -/
def common_flags (ncpu : Nat) : List String :=
  ["CROSS_COMPILE=aarch64-linux-gnu-", "CC=clang", "LD=ld.lld",
   "AS=llvm-as", "AR=llvm-ar", "OBJDUMP=llvm-objdump",
   "READELF=llvm-readelf", "NM=llvm-nm", "OBJCOPY=llvm-objcopy",
   "ARCH=arm64", "-j" ++ toString ncpu]

/-- Parsed command-line arguments (lines 70-77). -/
structure Args where
  target : String
  allow_dirty : Bool
  oneui : Bool
  aosp : Bool
  no_ksu : Bool
  permissive : Bool
  deriving DecidableEq, Repr

/-- The `make_common` command line (line 127). -/
def make_common (ncpu : Nat) : List String :=
  ["make", "O=out", "LLVM=1", "-j" ++ toString ncpu] ++ common_flags ncpu

/-- The composed `make_defconfig` command line (lines 128-134): base fragment,
then `oneui.config` when the OneUI variant is requested, then
`permissive.config` when permissive is requested, then `no-ksu.config`
unconditionally. -/
def make_defconfig (args : Args) (ncpu : Nat) : List String :=
  make_common ncpu ++ ["exynos9611-" ++ args.target ++ "_defconfig"]
    ++ (if args.oneui then ["oneui.config"] else [])
    ++ (if args.permissive then ["permissive.config"] else [])
    ++ ["no-ksu.config"]

/-- The fixed manifest passed to `create_zip` (lines 151-160). -/
def zip_files : List String :=
  ["Image",
   "META-INF/com/google/android/update-binary",
   "META-INF/com/google/android/updater-script",
   "tools/ak3-core.sh",
   "tools/busybox",
   "tools/magiskboot",
   "anykernel.sh",
   "version"]

/-- The archive filename `'SN_{}_{}_{}_{}.zip'.format(...)` (lines 148-149). -/
def zip_name (args : Args) (today : String) : String :=
  "SN_" ++ kernel_version ++ "_" ++ args.target ++ "_"
    ++ (if args.oneui then "OneUI" else "AOSP") ++ "_" ++ today ++ ".zip"

/-- The diagnostic printed when the toolchain directory is absent (line 100). -/
def toolchain_msg (cwd : String) : String :=
  "Toolchain must be available at " ++ cwd ++ "/toolchain"

/-- Embedding of `display_info(info_dict)` (lines 41-45): a banner line, one
`key=value` line per entry in insertion order, and a closing banner line. -/
def display_info (kvs : List (String × String)) : List Eff :=
  [Eff.print "================================"]
    ++ kvs.map (fun kv => Eff.print (kv.1 ++ "=" ++ kv.2))
    ++ [Eff.print "================================"]

/-- The external world the script runs in: subprocess results, regex search
results, file existence and contents, working directory, initial PATH, CPU
count, and the formatted date and elapsed-time strings. -/
structure World where
  exec : List String → ProcResult
  search : String → String → Option String
  pathExists : String → Bool
  readUts : Option String
  imageExists : Bool
  akRead : String → Option String
  cwd : String
  path0 : List Char
  cpu_count : Nat
  today : String
  elapsed : String

/-- Embedding of `ClangCompiler.verify_executable` (lines 55-61): run
`./toolchain/bin/clang -v`; on `CommandError` print a diagnostic and
re-raise. -/
def verify_executable (w : World) : Except PyError Unit × List Eff :=
  match run_command w.exec clang_cmd none none with
  | (Except.error e, t) => (Except.error e, t ++ [Eff.print "Clang execution failed"])
  | (Except.ok _, t) => (Except.ok (), t)

/-- Embedding of `ClangCompiler.get_version` (lines 63-67): run clang `-v`
and extract the version line from the captured stderr. -/
def get_version (w : World) : Except PyError String × List Eff :=
  match run_command w.exec clang_cmd none none with
  | (Except.error e, t) => (Except.error e, t)
  | (Except.ok r, t) => (extract_match w.search version_regex r.2, t)

/-- Sequencing of two effectful steps: the first step's trace always
happened; on its failure the error propagates and nothing further runs. -/
def seqE {α β : Type} (x : Except PyError α × List Eff)
    (f : α → Except PyError β × List Eff) : Except PyError β × List Eff :=
  match x with
  | (Except.error e, t) => (Except.error e, t)
  | (Except.ok a, t) =>
    match f a with
    | (r, t2) => (r, t ++ t2)

/-- Stages of `main` from `print('Building the kernel...')` on (lines
139-172): compilation, release-string extraction, image staging, packaging
and the final report. -/
def buildAndPackage (w : World) (args : Args) : Except PyError Unit × List Eff :=
  seqE (Except.ok (), [Eff.print "Building the kernel..."]) fun _ =>
  seqE (run_command w.exec (make_common w.cpu_count)
          (some "make_common_stdout.log")
          (some "make_common_stderr.log")) fun _ =>
  seqE (Except.ok (), [Eff.print "Build complete"]) fun _ =>
  seqE
    (match w.readUts with
     | none =>
       (Except.error (PyError.FileNotFoundError "out/include/generated/utsrelease.h"),
        [Eff.readFile "out/include/generated/utsrelease.h"])
     | some content =>
       (extract_match w.search uts_regex content,
        [Eff.readFile "out/include/generated/utsrelease.h"])) fun kvi =>
  seqE
    (if w.imageExists then
       (Except.ok (), [Eff.copyfile "out/arch/arm64/boot/Image" "AnyKernel3/Image"])
     else
       (Except.error (PyError.FileNotFoundError "out/arch/arm64/boot/Image"),
        [])) fun _ =>
  seqE (Except.ok (), [Eff.chdir "AnyKernel3/"]) fun _ =>
  seqE
    (match create_zip w.akRead (zip_name args w.today) zip_files with
     | (r, _, t) => (r, t)) fun _ =>
  (Except.ok (),
   [Eff.removeIfExists (w.cwd ++ "/AnyKernel3/../" ++ zip_name args w.today),
    Eff.move (zip_name args w.today) (w.cwd ++ "/AnyKernel3/../" ++ zip_name args w.today),
    Eff.chdir ".."]
   ++ display_info
        [("OUT_ZIPNAME", zip_name args w.today),
         ("KERNEL_VERSION", kvi),
         ("ELAPSED_TIME", w.elapsed ++ " seconds")])

/-- The configuration-generation run (line 138) followed by the rest of the
pipeline. -/
def configureAndBuild (w : World) (args : Args) : Except PyError Unit × List Eff :=
  seqE (run_command w.exec (make_defconfig args w.cpu_count)
          (some "make_defconfig_stdout.log")
          (some "make_defconfig_stderr.log")) fun _ =>
  buildAndPackage w args

/-- The body of `main` after argument validation has passed (lines 88-172). -/
def mainAfterValidate (w : World) (args : Args) : Except PyError Unit × List Eff :=
  seqE
    (if w.pathExists "AnyKernel3/anykernel.sh" then (Except.ok (), [])
     else
       match run_command w.exec git_cmd none none with
       | (r, t) =>
         (r.map (fun _ => ()),
          Eff.print "File not found: AnyKernel3/anykernel.sh" :: t)) fun _ =>
  if ¬ w.pathExists "toolchain/bin/clang" then
    (Except.ok (), [Eff.print "File not found: toolchain/bin/clang",
                    Eff.print (toolchain_msg w.cwd)])
  else
  seqE (verify_executable w) fun _ =>
  seqE (get_version w) fun ver =>
  seqE
    (Except.ok (),
     display_info
       [("Kernel Name", "Something New"),
        ("Kernel Version", kernel_version),
        ("Build Type", if args.oneui then "OneUI" else "AOSP"),
        ("SELinux", if args.permissive then "Permissive" else "Enforcing"),
        ("Device", args.target),
        ("With KernelSU", pyBool (!args.no_ksu)),
        ("Using LLVM", "True"),
        ("Toolchain Version", ver)]
     ++ [Eff.setPath (prepare_path (toolchain_bin w.cwd) w.path0)]
     ++ (if w.pathExists "out" && !args.allow_dirty then
           [Eff.print "Cleaning build output...", Eff.rmtree "out"]
         else [])
     ++ [Eff.print "Running make defconfig..."]) fun _ =>
  configureAndBuild w args

/-- Embedding of `main` (lines 69-172), after argument parsing: validation of
the variant flags and the target, then the pipeline. -/
def main (w : World) (args : Args) : Except PyError Unit × List Eff :=
  if args.oneui && args.aosp then
    (Except.ok (),
     [Eff.print "Both OneUI and AOSP flags cannot be defined at the same time."])
  else if args.target ∈ valid_targets then
    mainAfterValidate w args
  else
    (Except.ok (),
     [Eff.print "Specify a valid target: a51/f41/m31s/m31/m21/gta4xl/gta4xlwifi"])

/-- Strict ordering of two effects in a trace: some occurrence of `a` is
followed, strictly later, by an occurrence of `b`. -/
def occursBefore (a b : Eff) : List Eff → Prop
  | [] => False
  | e :: rest => (e = a ∧ b ∈ rest) ∨ occursBefore a b rest

instance (a b : Eff) (tr : List Eff) : Decidable (occursBefore a b tr) := by
  induction tr with
  | nil => exact isFalse (fun h => h)
  | cons e rest ih =>
    have : Decidable ((e = a ∧ b ∈ rest) ∨ occursBefore a b rest) := @instDecidableOr _ _ _ ih
    exact this

/-! Helper lemmas about the embedding. -/

theorem seqE_ok {α β : Type} (a : α) (t : List Eff)
    (f : α → Except PyError β × List Eff) :
    seqE (Except.ok a, t) f = ((f a).1, t ++ (f a).2) := rfl

theorem seqE_error {α β : Type} (e : PyError) (t : List Eff)
    (f : α → Except PyError β × List Eff) :
    seqE (Except.error e, t) f = (Except.error e, t) := rfl

theorem seqE_trace {α β : Type} (x : Except PyError α × List Eff)
    (f : α → Except PyError β × List Eff) :
    ∃ t, (seqE x f).2 = x.2 ++ t := by
  rcases x with ⟨r, tr⟩
  cases r with
  | error e => exact ⟨[], by simp [seqE]⟩
  | ok a => exact ⟨(f a).2, by simp [seqE]⟩

theorem zipWriteAll_names (fs : String → Option String) (files : List String) :
    (zipWriteAll fs files).2.map Prod.fst
      = files.takeWhile (fun f => (fs f).isSome) := by
  induction files with
  | nil => simp [zipWriteAll]
  | cons f rest ih =>
    cases hf : fs f with
    | none => simp [zipWriteAll, hf, List.takeWhile]
    | some c =>
      simp only [zipWriteAll, hf, List.takeWhile]
      rcases hz : zipWriteAll fs rest with ⟨r, es⟩
      simpa [hz, hf] using ih

theorem zipWriteAll_missing (fs : String → Option String) (files : List String)
    (h : ∃ f ∈ files, fs f = none) :
    ∃ m ∈ files, fs m = none ∧
      (zipWriteAll fs files).1 = Except.error (PyError.FileNotFoundError m) := by
  induction files with
  | nil => simp at h
  | cons f rest ih =>
    cases hf : fs f with
    | none => exact ⟨f, by simp, hf, by simp [zipWriteAll, hf]⟩
    | some c =>
      have hrest : ∃ g ∈ rest, fs g = none := by
        rcases h with ⟨g, hg, hgn⟩
        rcases List.mem_cons.mp hg with rfl | hg'
        · exact absurd hf (by simp [hgn])
        · exact ⟨g, hg', hgn⟩
      rcases ih hrest with ⟨m, hm, hmn, hz⟩
      refine ⟨m, by simp [hm], hmn, ?_⟩
      simp only [zipWriteAll, hf]
      rcases hz2 : zipWriteAll fs rest with ⟨r, es⟩
      simpa [hz2] using hz

theorem zipWriteAll_all_present (fs : String → Option String) (files : List String)
    (h : ∀ f ∈ files, (fs f).isSome) :
    (zipWriteAll fs files).1 = Except.ok () := by
  induction files with
  | nil => simp [zipWriteAll]
  | cons f rest ih =>
    have hf : (fs f).isSome := h f (by simp)
    rcases Option.isSome_iff_exists.mp hf with ⟨c, hc⟩
    simp only [zipWriteAll, hc]
    rcases hz : zipWriteAll fs rest with ⟨r, es⟩
    have := ih (fun g hg => h g (by simp [hg]))
    simpa [hz] using this

theorem create_zip_fst (fs : String → Option String) (zn : String)
    (files : List String) :
    (create_zip fs zn files).1 = (zipWriteAll fs files).1 := by
  unfold create_zip
  rcases hz : zipWriteAll fs files with ⟨r, es⟩
  cases r <;> simp

theorem create_zip_entries (fs : String → Option String) (zn : String)
    (files : List String) :
    (create_zip fs zn files).2.1 = (zipWriteAll fs files).2 := by
  unfold create_zip
  rcases hz : zipWriteAll fs files with ⟨r, es⟩
  cases r <;> simp

theorem pySplit_left (sep : Char) (tp p : List Char) (h : sep ∉ tp) :
    pySplit sep (tp ++ sep :: p) = tp :: pySplit sep p := by
  induction tp with
  | nil => simp [pySplit]
  | cons c rest ih =>
    have hc : ¬ c = sep := fun hcs => h (by simp [hcs])
    have hrest : sep ∉ rest := fun hr => h (by simp [hr])
    simp only [List.cons_append, pySplit, hc, if_false]
    rw [show rest.append (sep :: p) = rest ++ sep :: p from rfl, ih hrest]

/-! Theorems settling each claim. -/

/-- C1: the claim says a failed match raises `PatternNotFoundError` (the
source's `AssertionError`).  It does not: building the error message
evaluates an f-string that references the undefined name `pattern`, so the
interpreter raises `NameError` before the `AssertionError` is constructed.
This theorem evaluates the embedded `extract_match` at a failing input: the
pattern used on `utsrelease.h` against a text containing no quoted string. -/
theorem extract_match_failing_input_raises_name_error :
    extract_match (fun _ _ => none) uts_regex "no quoted string here"
      = Except.error (PyError.NameError "pattern") := rfl

/-- C2 counterexample: with the file `"a"` present (content `"x"`) and `"b"`
missing, `create_zip` fails, but the archive left on disk contains exactly
the entry for `"a"` — an archive holding a strict subset of the requested
files, which the claim says can never result. -/
theorem create_zip_partial_archive_counterexample :
    ((create_zip (fun s => if s = "a" then some "x" else none) "z.zip"
        ["a", "b"]).1 = Except.error (PyError.FileNotFoundError "b")) ∧
    ((create_zip (fun s => if s = "a" then some "x" else none) "z.zip"
        ["a", "b"]).2.1 = [("a", "x")]) := ⟨rfl, rfl⟩

/-- C2 amended: if any listed file is missing, `create_zip` fails (with
Python's built-in `FileNotFoundError`, there is no dedicated `PackagingError`
class), and the archive left on disk holds exactly the listed files that
strictly precede the first missing one — possibly a partial archive. -/
theorem create_zip_missing_file_fails (fs : String → Option String)
    (zn : String) (files : List String) (h : ∃ f ∈ files, fs f = none) :
    (∃ m ∈ files, fs m = none ∧
       (create_zip fs zn files).1 = Except.error (PyError.FileNotFoundError m)) ∧
    (create_zip fs zn files).2.1.map Prod.fst
      = files.takeWhile (fun f => (fs f).isSome) := by
  refine ⟨?_, ?_⟩
  · rcases zipWriteAll_missing fs files h with ⟨m, hm, hmn, hz⟩
    exact ⟨m, hm, hmn, by rw [create_zip_fst, hz]⟩
  · rw [create_zip_entries, zipWriteAll_names]

/-- C2 witness: a concrete missing file, checked through the theorem. -/
theorem create_zip_missing_file_fails_witness :
    (∃ m ∈ ["p", "q"],
       (fun s => if s = "p" then some "c" else none) m = none ∧
       (create_zip (fun s => if s = "p" then some "c" else none) "w.zip"
          ["p", "q"]).1 = Except.error (PyError.FileNotFoundError m)) ∧
    (create_zip (fun s => if s = "p" then some "c" else none) "w.zip"
        ["p", "q"]).2.1.map Prod.fst
      = List.takeWhile
          (fun f => ((fun s => if s = "p" then some "c" else none) f).isSome)
          ["p", "q"] :=
  create_zip_missing_file_fails (fun s => if s = "p" then some "c" else none)
    "w.zip" ["p", "q"] ⟨"q", by simp, by simp⟩

/-- C4: `run_command` on a process exiting 0 returns the captured stdout and
stderr and raises nothing; on a nonzero exit it raises `CommandError`
carrying the command and the exit code; in both cases each requested log file
has been written (overwritten) with the captured text of its stream. -/
theorem run_command_spec (exec : List String → ProcResult)
    (command : List String) (sl el : Option String) :
    ((exec command).returncode = 0 →
      (run_command exec command sl el).1
        = Except.ok ((exec command).stdout, (exec command).stderr)) ∧
    ((exec command).returncode ≠ 0 →
      (run_command exec command sl el).1
        = Except.error (PyError.CommandError command (exec command).returncode)) ∧
    (∀ p, sl = some p →
      Eff.writeFile p (exec command).stdout ∈ (run_command exec command sl el).2) ∧
    (∀ p, el = some p →
      Eff.writeFile p (exec command).stderr ∈ (run_command exec command sl el).2) := by
  refine ⟨fun h0 => ?_, fun hn => ?_, fun p hp => ?_, fun p hp => ?_⟩
  · simp [run_command, h0]
  · simp [run_command, hn]
  · subst hp
    by_cases h : (exec command).returncode = 0 <;>
      cases el <;> simp [run_command, h]
  · subst hp
    by_cases h : (exec command).returncode = 0 <;>
      cases sl <;> simp [run_command, h]

/-- C4 witness: a command exiting 0 and one exiting 3, with both logs
requested, checked through the theorem. -/
theorem run_command_spec_witness :
    ((run_command (fun _ => ⟨0, "so", "se"⟩) ["true"]
        (some "o.log") (some "e.log")).1 = Except.ok ("so", "se")) ∧
    ((run_command (fun _ => ⟨3, "so", "se"⟩) ["false"]
        (some "o.log") (some "e.log")).1
       = Except.error (PyError.CommandError ["false"] 3)) ∧
    Eff.writeFile "o.log" "so"
      ∈ (run_command (fun _ => ⟨0, "so", "se"⟩) ["true"]
          (some "o.log") (some "e.log")).2 ∧
    Eff.writeFile "e.log" "se"
      ∈ (run_command (fun _ => ⟨3, "so", "se"⟩) ["false"]
          (some "o.log") (some "e.log")).2 :=
  ⟨(run_command_spec (fun _ => ⟨0, "so", "se"⟩) ["true"] (some "o.log")
      (some "e.log")).1 rfl,
   (run_command_spec (fun _ => ⟨3, "so", "se"⟩) ["false"] (some "o.log")
      (some "e.log")).2.1 (by decide),
   (run_command_spec (fun _ => ⟨0, "so", "se"⟩) ["true"] (some "o.log")
      (some "e.log")).2.2.1 "o.log" rfl,
   (run_command_spec (fun _ => ⟨3, "so", "se"⟩) ["false"] (some "o.log")
      (some "e.log")).2.2.2 "e.log" rfl⟩

/-- C5: for target `a51` with the OneUI variant and permissive requested, the
composed configuration command is the common `make` invocation followed by,
in exactly this order, the base fragment `exynos9611-a51_defconfig`, then
`oneui.config`, then `permissive.config`, then `no-ksu.config`. -/
theorem defconfig_overlay_order_a51 (ncpu : Nat) (dirty ksu : Bool) :
    make_defconfig ⟨"a51", dirty, true, false, ksu, true⟩ ncpu
      = make_common ncpu
          ++ ["exynos9611-a51_defconfig", "oneui.config", "permissive.config",
              "no-ksu.config"] := by
  simp [make_defconfig]

/-- C9 counterexample: the PATH-preparation step is not idempotent when the
toolchain directory string itself contains the path separator: with
toolchain path `a:b` and initial PATH `x`, a second run prepends again. -/
theorem prepare_path_not_idempotent_counterexample :
    prepare_path "a:b".data (prepare_path "a:b".data "x".data)
      ≠ prepare_path "a:b".data "x".data := by decide

/-- C9 amended: the step never re-adds the toolchain directory when it is
already one of the PATH's colon-separated entries, and, provided the
toolchain directory path contains no colon (true of any single PATH entry),
the step is idempotent; a colon inside the directory path defeats the
membership test and a second run prepends again. -/
theorem prepare_path_idempotent (tp p : List Char) (h : ':' ∉ tp) :
    (tp ∈ pySplit ':' p → prepare_path tp p = p) ∧
    prepare_path tp (prepare_path tp p) = prepare_path tp p := by
  refine ⟨fun hmem => by simp [prepare_path, hmem], ?_⟩
  by_cases hmem : tp ∈ pySplit ':' p
  · simp [prepare_path, hmem]
  · have h1 : prepare_path tp p = tp ++ ':' :: p := by
      simp [prepare_path, hmem]
    have h2 : tp ∈ pySplit ':' (tp ++ ':' :: p) := by
      rw [pySplit_left ':' tp p h]; simp
    rw [h1, prepare_path, if_pos h2]

/-- C9 witness: a realistic toolchain path and PATH, checked through the
theorem. -/
theorem prepare_path_idempotent_witness :
    ("/w/toolchain/bin".data ∈ pySplit ':' "/usr/bin".data →
       prepare_path "/w/toolchain/bin".data "/usr/bin".data = "/usr/bin".data) ∧
    prepare_path "/w/toolchain/bin".data
        (prepare_path "/w/toolchain/bin".data "/usr/bin".data)
      = prepare_path "/w/toolchain/bin".data "/usr/bin".data :=
  prepare_path_idempotent "/w/toolchain/bin".data "/usr/bin".data (by decide)

/-- A world in which every external step succeeds: every command exits 0,
every pattern search succeeds (returning the searched text), every file
exists. -/
def okWorld : World :=
  ⟨fun _ => ⟨0, "out text", "clang version 10.0.1"⟩,
   fun _ t => some t,
   fun _ => true,
   some "4.14.113-SN",
   true,
   fun _ => some "data",
   "/repo",
   "/usr/bin".data,
   8,
   "2026-10-12",
   "42.0"⟩

/-- A world in which the compilation `make` exits 2 and everything else
succeeds. -/
def makeFailWorld : World :=
  ⟨fun c => if c = make_common 8 then ⟨2, "mo", "me"⟩
            else ⟨0, "out text", "clang version 10.0.1"⟩,
   fun _ t => some t,
   fun _ => true,
   some "4.14.113-SN",
   true,
   fun _ => some "data",
   "/repo",
   "/usr/bin".data,
   8,
   "2026-10-12",
   "42.0"⟩

/-- A world in which the toolchain directory is absent and everything else
succeeds. -/
def noToolchainWorld : World :=
  ⟨fun _ => ⟨0, "out text", "clang version 10.0.1"⟩,
   fun _ t => some t,
   fun p => !(p == "toolchain/bin/clang"),
   some "4.14.113-SN",
   true,
   fun _ => some "data",
   "/repo",
   "/usr/bin".data,
   8,
   "2026-10-12",
   "42.0"⟩

/-- A world in which the vendored `AnyKernel3` checkout and the toolchain are
both absent and the `git submodule update --init` fetch exits 1. -/
def gitFailWorld : World :=
  ⟨fun c => if c = git_cmd then ⟨1, "", ""⟩ else ⟨0, "", ""⟩,
   fun _ _ => none,
   fun _ => false,
   none,
   false,
   fun _ => none,
   "/w",
   [],
   4,
   "2026-10-12",
   "1.0"⟩

/-- C3: a configuration with both variant flags set, or with a target outside
the enumerated device set, is rejected: `main` returns normally (a soft
exit), and its whole effect trace is a single diagnostic print — in
particular no process is spawned and there is no other side effect. -/
theorem validation_rejects (w : World) (args : Args)
    (h : (args.oneui = true ∧ args.aosp = true) ∨ args.target ∉ valid_targets) :
    (main w args).1 = Except.ok () ∧
    ∃ msg, (main w args).2 = [Eff.print msg] := by
  unfold main
  by_cases hb : (args.oneui && args.aosp) = true
  · simp [hb]
  · have ht : args.target ∉ valid_targets := by
      rcases h with ⟨h1, h2⟩ | h
      · exact absurd (by simp [h1, h2]) hb
      · exact h
    simp [hb, ht]

/-- C3 witness: both variant flags set, checked through the theorem. -/
theorem validation_rejects_witness :
    (main okWorld ⟨"a51", false, true, true, false, false⟩).1 = Except.ok () ∧
    ∃ msg, (main okWorld ⟨"a51", false, true, true, false, false⟩).2
      = [Eff.print msg] :=
  validation_rejects okWorld ⟨"a51", false, true, true, false, false⟩
    (Or.inl ⟨rfl, rfl⟩)

/-- C8 counterexample: a run with the toolchain directory absent in which the
vendored `AnyKernel3` checkout is also absent and the submodule fetch fails.
The pipeline then raises `CommandError` — a hard error, not the claimed soft
exit — and the diagnostic naming the missing toolchain path is never
printed. -/
theorem toolchain_absent_counterexample :
    gitFailWorld.pathExists "toolchain/bin/clang" = false ∧
    (main gitFailWorld ⟨"a51", false, false, false, false, false⟩).1
      = Except.error (PyError.CommandError git_cmd 1) ∧
    Eff.print (toolchain_msg gitFailWorld.cwd)
      ∉ (main gitFailWorld ⟨"a51", false, false, false, false, false⟩).2 := by
  refine ⟨rfl, rfl, ?_⟩
  decide

/-- C8 amended: in every run where validation passes and the vendored
sub-project step succeeds (the checkout is present, or its fetch exits 0),
an absent toolchain directory makes the pipeline exit softly (no raised
error) after printing the diagnostic naming the missing toolchain path, and
the only external command possibly issued is the submodule fetch — never a
configuration-generation or compilation command. -/
theorem toolchain_absent_soft_exit (w : World) (args : Args)
    (hval1 : (args.oneui && args.aosp) = false)
    (hval2 : args.target ∈ valid_targets)
    (hak : w.pathExists "AnyKernel3/anykernel.sh" = true
             ∨ (w.exec git_cmd).returncode = 0)
    (htc : w.pathExists "toolchain/bin/clang" = false) :
    (main w args).1 = Except.ok () ∧
    Eff.print (toolchain_msg w.cwd) ∈ (main w args).2 ∧
    (∀ c, Eff.popen c ∈ (main w args).2 → c = git_cmd) := by
  by_cases hakp : w.pathExists "AnyKernel3/anykernel.sh" = true
  · simp [main, mainAfterValidate, hval1, hval2, hakp, htc, seqE]
  · have hgit : (w.exec git_cmd).returncode = 0 := by
      rcases hak with hak | hak
      · exact absurd hak hakp
      · exact hak
    simp [main, mainAfterValidate, hval1, hval2, hakp, htc, hgit, seqE,
      run_command, Except.map]

/-- C8 amended witness: toolchain absent with the checkout present, checked
through the theorem. -/
theorem toolchain_absent_soft_exit_witness :
    (main noToolchainWorld ⟨"m31", false, false, false, false, false⟩).1
      = Except.ok () ∧
    Eff.print (toolchain_msg noToolchainWorld.cwd)
      ∈ (main noToolchainWorld ⟨"m31", false, false, false, false, false⟩).2 ∧
    (∀ c, Eff.popen c
        ∈ (main noToolchainWorld ⟨"m31", false, false, false, false, false⟩).2
      → c = git_cmd) :=
  toolchain_absent_soft_exit noToolchainWorld
    ⟨"m31", false, false, false, false, false⟩ rfl (by decide)
    (Or.inl rfl) rfl

theorem run_command_trace_both (exec : List String → ProcResult)
    (cmd : List String) (p q : String) :
    (run_command exec cmd (some p) (some q)).2
      = [Eff.popen cmd, Eff.writeFile p (exec cmd).stdout,
         Eff.writeFile q (exec cmd).stderr,
         Eff.print ("Output log files: " ++ p ++ ", " ++ q)] := by
  by_cases h : (exec cmd).returncode = 0 <;> simp [run_command, h, pyStr]

theorem configureAndBuild_popen (w : World) (args : Args) :
    ∃ t, (configureAndBuild w args).2
      = Eff.popen (make_defconfig args w.cpu_count)
          :: Eff.writeFile "make_defconfig_stdout.log"
               (w.exec (make_defconfig args w.cpu_count)).stdout
          :: Eff.writeFile "make_defconfig_stderr.log"
               (w.exec (make_defconfig args w.cpu_count)).stderr
          :: Eff.print ("Output log files: " ++ "make_defconfig_stdout.log"
               ++ ", " ++ "make_defconfig_stderr.log")
          :: t := by
  rcases seqE_trace (run_command w.exec (make_defconfig args w.cpu_count)
      (some "make_defconfig_stdout.log") (some "make_defconfig_stderr.log"))
      (fun _ => buildAndPackage w args) with ⟨t, ht⟩
  refine ⟨t, ?_⟩
  show (seqE (run_command w.exec (make_defconfig args w.cpu_count)
      (some "make_defconfig_stdout.log") (some "make_defconfig_stderr.log"))
      (fun _ => buildAndPackage w args)).2 = _
  rw [ht, run_command_trace_both]
  simp

/-- C6: for target `m21` with no variant flags, permissive off and
allow-dirty off, the composed configuration command is the common `make`
invocation followed by exactly the base fragment `exynos9611-m21_defconfig`
and the feature-exclusion fragment `no-ksu.config` — no variant and no
permissive overlay; and in any run that reaches the configuration stage with
a pre-existing output directory, the recursive removal of `out` happens
strictly before the configuration command is spawned. -/
theorem m21_clean_before_defconfig (w : World) (ksu : Bool) (v : String)
    (hak : w.pathExists "AnyKernel3/anykernel.sh" = true
             ∨ (w.exec git_cmd).returncode = 0)
    (htc : w.pathExists "toolchain/bin/clang" = true)
    (hclang : (w.exec clang_cmd).returncode = 0)
    (hver : w.search version_regex (w.exec clang_cmd).stderr = some v)
    (hout : w.pathExists "out" = true) :
    make_defconfig ⟨"m21", false, false, false, ksu, false⟩ w.cpu_count
      = make_common w.cpu_count
          ++ ["exynos9611-m21_defconfig", "no-ksu.config"] ∧
    occursBefore (Eff.rmtree "out")
      (Eff.popen (make_defconfig ⟨"m21", false, false, false, ksu, false⟩
         w.cpu_count))
      (main w ⟨"m21", false, false, false, ksu, false⟩).2 := by
  refine ⟨by simp [make_defconfig], ?_⟩
  obtain ⟨t, ht⟩ := configureAndBuild_popen w ⟨"m21", false, false, false, ksu, false⟩
  have hv : ("m21" : String) ∈ valid_targets := by decide
  by_cases hakp : w.pathExists "AnyKernel3/anykernel.sh" = true
  · simp [main, mainAfterValidate, hv, hakp, htc, hclang, hver, hout,
      verify_executable, get_version, run_command, extract_match,
      display_info, seqE, ht, occursBefore]
  · have hgit : (w.exec git_cmd).returncode = 0 := by
      rcases hak with hak | hak
      · exact absurd hak hakp
      · exact hak
    simp [main, mainAfterValidate, hv, hakp, hgit, htc, hclang, hver, hout,
      verify_executable, get_version, run_command, extract_match,
      display_info, seqE, Except.map, ht, occursBefore]

/-- C6 witness: the all-success world, checked through the theorem. -/
theorem m21_clean_before_defconfig_witness :
    make_defconfig ⟨"m21", false, false, false, false, false⟩ okWorld.cpu_count
      = make_common okWorld.cpu_count
          ++ ["exynos9611-m21_defconfig", "no-ksu.config"] ∧
    occursBefore (Eff.rmtree "out")
      (Eff.popen (make_defconfig ⟨"m21", false, false, false, false, false⟩
         okWorld.cpu_count))
      (main okWorld ⟨"m21", false, false, false, false, false⟩).2 :=
  m21_clean_before_defconfig okWorld false "clang version 10.0.1"
    (Or.inl rfl) rfl rfl rfl rfl

/-- C7: whenever the compilation `make` exits nonzero (after a successful
configuration step), the pipeline aborts with `CommandError` carrying that
command and exit code; the two configuration-generation logs and the two
compilation logs have all been written with the captured stream texts; and
no archive is ever created or moved — the packaging stage is not reached. -/
theorem compile_failure_aborts (w : World) (args : Args) (v : String)
    (hval1 : (args.oneui && args.aosp) = false)
    (hval2 : args.target ∈ valid_targets)
    (hak : w.pathExists "AnyKernel3/anykernel.sh" = true
             ∨ (w.exec git_cmd).returncode = 0)
    (htc : w.pathExists "toolchain/bin/clang" = true)
    (hclang : (w.exec clang_cmd).returncode = 0)
    (hver : w.search version_regex (w.exec clang_cmd).stderr = some v)
    (hdc : (w.exec (make_defconfig args w.cpu_count)).returncode = 0)
    (hmc : (w.exec (make_common w.cpu_count)).returncode ≠ 0) :
    (main w args).1
      = Except.error (PyError.CommandError (make_common w.cpu_count)
          (w.exec (make_common w.cpu_count)).returncode) ∧
    Eff.writeFile "make_defconfig_stdout.log"
        (w.exec (make_defconfig args w.cpu_count)).stdout ∈ (main w args).2 ∧
    Eff.writeFile "make_defconfig_stderr.log"
        (w.exec (make_defconfig args w.cpu_count)).stderr ∈ (main w args).2 ∧
    Eff.writeFile "make_common_stdout.log"
        (w.exec (make_common w.cpu_count)).stdout ∈ (main w args).2 ∧
    Eff.writeFile "make_common_stderr.log"
        (w.exec (make_common w.cpu_count)).stderr ∈ (main w args).2 ∧
    (∀ n es, Eff.mkzip n es ∉ (main w args).2) ∧
    (∀ s d, Eff.move s d ∉ (main w args).2) := by
  by_cases hakp : w.pathExists "AnyKernel3/anykernel.sh" = true
  · simp [main, mainAfterValidate, configureAndBuild, buildAndPackage,
      hval1, hval2, hakp, htc, hclang, hver, hdc, hmc,
      verify_executable, get_version, run_command, extract_match,
      display_info, seqE, pyStr]
  · have hgit : (w.exec git_cmd).returncode = 0 := by
      rcases hak with hak | hak
      · exact absurd hak hakp
      · exact hak
    simp [main, mainAfterValidate, configureAndBuild, buildAndPackage,
      hval1, hval2, hakp, hgit, htc, hclang, hver, hdc, hmc,
      verify_executable, get_version, run_command, extract_match,
      display_info, seqE, pyStr, Except.map]

/-- C7 witness: the world whose compilation `make` exits 2, checked through
the theorem. -/
theorem compile_failure_aborts_witness :
    (main makeFailWorld ⟨"m21", false, false, false, false, false⟩).1
      = Except.error (PyError.CommandError (make_common makeFailWorld.cpu_count)
          (makeFailWorld.exec (make_common makeFailWorld.cpu_count)).returncode) ∧
    Eff.writeFile "make_defconfig_stdout.log"
        (makeFailWorld.exec
          (make_defconfig ⟨"m21", false, false, false, false, false⟩
            makeFailWorld.cpu_count)).stdout
      ∈ (main makeFailWorld ⟨"m21", false, false, false, false, false⟩).2 ∧
    Eff.writeFile "make_defconfig_stderr.log"
        (makeFailWorld.exec
          (make_defconfig ⟨"m21", false, false, false, false, false⟩
            makeFailWorld.cpu_count)).stderr
      ∈ (main makeFailWorld ⟨"m21", false, false, false, false, false⟩).2 ∧
    Eff.writeFile "make_common_stdout.log"
        (makeFailWorld.exec (make_common makeFailWorld.cpu_count)).stdout
      ∈ (main makeFailWorld ⟨"m21", false, false, false, false, false⟩).2 ∧
    Eff.writeFile "make_common_stderr.log"
        (makeFailWorld.exec (make_common makeFailWorld.cpu_count)).stderr
      ∈ (main makeFailWorld ⟨"m21", false, false, false, false, false⟩).2 ∧
    (∀ n es, Eff.mkzip n es
      ∉ (main makeFailWorld ⟨"m21", false, false, false, false, false⟩).2) ∧
    (∀ s d, Eff.move s d
      ∉ (main makeFailWorld ⟨"m21", false, false, false, false, false⟩).2) :=
  compile_failure_aborts makeFailWorld
    ⟨"m21", false, false, false, false, false⟩ "clang version 10.0.1"
    rfl (by decide) (Or.inl rfl) rfl (by decide) (by decide) (by decide)
    (by decide)

theorem create_zip_ok (fs : String → Option String) (zn : String)
    (files : List String) (h : ∀ f ∈ files, (fs f).isSome) :
    create_zip fs zn files
      = (Except.ok (), (zipWriteAll fs files).2,
         [Eff.print ("Creating zip: " ++ zn ++ " with " ++ toString files.length
            ++ " files"),
          Eff.mkzip zn (zipWriteAll fs files).2,
          Eff.print "Zip creation complete"]) := by
  have h1 := zipWriteAll_all_present fs files h
  unfold create_zip
  rcases hz : zipWriteAll fs files with ⟨r, es⟩
  rw [hz] at h1
  simp only at h1
  subst h1
  simp [hz]

/-- C10: in every successful run, the archive is created under the name
`SN_{version}_{target}_{variant}_{date}.zip` whose version component is the
hardcoded constant `1.7.0` — the name does not involve the release string
extracted from `utsrelease.h` — while the extracted release string `kvi`
appears in the final report line. -/
theorem successful_run_zip_name (w : World) (args : Args) (v uts kvi : String)
    (hval1 : (args.oneui && args.aosp) = false)
    (hval2 : args.target ∈ valid_targets)
    (hak : w.pathExists "AnyKernel3/anykernel.sh" = true
             ∨ (w.exec git_cmd).returncode = 0)
    (htc : w.pathExists "toolchain/bin/clang" = true)
    (hclang : (w.exec clang_cmd).returncode = 0)
    (hver : w.search version_regex (w.exec clang_cmd).stderr = some v)
    (hdc : (w.exec (make_defconfig args w.cpu_count)).returncode = 0)
    (hmc : (w.exec (make_common w.cpu_count)).returncode = 0)
    (huts : w.readUts = some uts)
    (hkvi : w.search uts_regex uts = some kvi)
    (himg : w.imageExists = true)
    (hzip : ∀ f ∈ zip_files, (w.akRead f).isSome) :
    (main w args).1 = Except.ok () ∧
    (∃ es, Eff.mkzip ("SN_1.7.0_" ++ args.target ++ "_"
        ++ (if args.oneui then "OneUI" else "AOSP") ++ "_" ++ w.today
        ++ ".zip") es ∈ (main w args).2) ∧
    Eff.print ("KERNEL_VERSION=" ++ kvi) ∈ (main w args).2 := by
  have hcz := create_zip_ok w.akRead (zip_name args w.today) zip_files hzip
  have hzn : zip_name args w.today
      = "SN_1.7.0_" ++ args.target ++ "_"
        ++ (if args.oneui then "OneUI" else "AOSP") ++ "_" ++ w.today
        ++ ".zip" := rfl
  rw [hzn] at hcz
  by_cases hakp : w.pathExists "AnyKernel3/anykernel.sh" = true
  · simp [main, mainAfterValidate, configureAndBuild, buildAndPackage,
      hval1, hval2, hakp, htc, hclang, hver, hdc, hmc, huts, hkvi, himg,
      hcz, hzn, verify_executable, get_version, run_command, extract_match,
      display_info, seqE, pyStr]
  · have hgit : (w.exec git_cmd).returncode = 0 := by
      rcases hak with hak | hak
      · exact absurd hak hakp
      · exact hak
    simp [main, mainAfterValidate, configureAndBuild, buildAndPackage,
      hval1, hval2, hakp, hgit, htc, hclang, hver, hdc, hmc, huts, hkvi,
      himg, hcz, hzn, verify_executable, get_version, run_command,
      extract_match, display_info, seqE, pyStr, Except.map]

/-- C10 witness: the all-success world, checked through the theorem. -/
theorem successful_run_zip_name_witness :
    (main okWorld ⟨"m31s", false, false, false, false, false⟩).1
      = Except.ok () ∧
    (∃ es, Eff.mkzip ("SN_1.7.0_" ++ "m31s" ++ "_"
        ++ (if false then "OneUI" else "AOSP") ++ "_" ++ okWorld.today
        ++ ".zip") es
      ∈ (main okWorld ⟨"m31s", false, false, false, false, false⟩).2) ∧
    Eff.print ("KERNEL_VERSION=" ++ "4.14.113-SN")
      ∈ (main okWorld ⟨"m31s", false, false, false, false, false⟩).2 :=
  successful_run_zip_name okWorld ⟨"m31s", false, false, false, false, false⟩
    "clang version 10.0.1" "4.14.113-SN" "4.14.113-SN"
    rfl (by decide) (Or.inl rfl) rfl rfl rfl (by decide) (by decide) rfl rfl
    rfl (fun _ _ => rfl)

end BuildKernel
